import Mathlib

/-!
Shallow embedding of the booking subsystem of the hotel-booking backend:
room availability, booking creation, pricing quotes, promo codes, the
booking status state machine, cancellation refunds, rebooking, and the
review rating aggregator.  Each definition is translated from the
JavaScript route handlers and Mongoose schema hooks of the repository.
-/

namespace HotelBooking

/-- Booking status strings of the booking schema
(`pending`, `confirmed`, `checked_in`, `checked_out`, `completed`,
`cancelled`, `rejected`, `no_show`). -/
inductive BookingStatus
  | pending
  | confirmed
  | checked_in
  | checked_out
  | completed
  | cancelled
  | rejected
  | no_show
deriving DecidableEq, Repr

/-- Refund status strings stored in the cancellation sub-record. -/
inductive RefundStatus
  | pending
  | not_applicable
deriving DecidableEq, Repr

/-- A half-open stay interval: `checkIn`/`checkOut` as millisecond
timestamps (JavaScript `Date.getTime()` values). -/
structure DateRange where
  checkIn : Int
  checkOut : Int
deriving DecidableEq, Repr

/-- The `$or` filter used by the availability aggregation in the customer
routes: an existing booking matches the queried range `q` when
`existing.checkIn ∈ [q.checkIn, q.checkOut)` (clause one:
`$lt: checkOut, $gte: checkIn`) or
`existing.checkOut ∈ (q.checkIn, q.checkOut]` (clause two:
`$gt: checkIn, $lte: checkOut`). -/
def mongoOrOverlap (e q : DateRange) : Bool :=
  (decide (q.checkIn ≤ e.checkIn) && decide (e.checkIn < q.checkOut))
    || (decide (q.checkIn < e.checkOut) && decide (e.checkOut ≤ q.checkOut))

/-- The standard interval-overlap predicate named by the specification:
`existing.checkIn < newCheckOut AND existing.checkOut > newCheckIn`. -/
def stdOverlap (e q : DateRange) : Bool :=
  decide (e.checkIn < q.checkOut) && decide (q.checkIn < e.checkOut)

/-- One existing booking row as seen by the availability aggregation:
its stay range, its status, and `bookingDetails.numberOfRooms`. -/
structure BookingRow where
  range : DateRange
  status : BookingStatus
  numberOfRooms : Nat
deriving DecidableEq, Repr

/-- The `status: { $in: ['confirmed', 'pending'] }` filter: statuses that
hold inventory. -/
def holdsInventory (s : BookingStatus) : Bool :=
  s = BookingStatus.confirmed || s = BookingStatus.pending

/-- The aggregation `$match` + `$group`/`$sum` of the availability check:
total `numberOfRooms` over bookings whose status holds inventory and
whose range matches the `$or` date filter. -/
def bookedCount (rows : List BookingRow) (q : DateRange) : Nat :=
  ((rows.filter (fun b => holdsInventory b.status && mongoOrOverlap b.range q)).map
      (fun b => b.numberOfRooms)).sum

/-- The GET availability endpoint's
`Math.max(0, room.totalRooms - bookedCount)`. -/
def availabilityRemaining (totalRooms : Nat) (rows : List BookingRow) (q : DateRange) : Int :=
  max 0 ((totalRooms : Int) - (bookedCount rows q : Int))

/-- Outcome of the booking-creation availability gate. -/
inductive CreateDecision
  | created
  | rejected (availableSurfaced : Int)
deriving DecidableEq, Repr

/-- The availability gate of `POST /api/customer/bookings`:
`availableCount = room.totalRooms - bookedCount`; the request is rejected
with the message `Only ${availableCount} rooms available for selected
dates` when `availableCount < numberOfRooms`, and accepted otherwise. -/
def createBookingDecision (totalRooms : Nat) (rows : List BookingRow) (q : DateRange)
    (numberOfRooms : Nat) : CreateDecision :=
  let availableCount : Int := (totalRooms : Int) - (bookedCount rows q : Int)
  if availableCount < numberOfRooms then CreateDecision.rejected availableCount
  else CreateDecision.created

/-- The cancellation sub-record of a booking (`booking.cancellation`). -/
structure CancellationRecord where
  isCancelled : Bool
  cancelledBy : Option String
  reason : Option String
  refundAmount : Option ℚ
  refundStatus : Option RefundStatus
deriving DecidableEq, Repr

/-- The default cancellation sub-record of a freshly created booking. -/
def emptyCancellation : CancellationRecord :=
  { isCancelled := false, cancelledBy := none, reason := none,
    refundAmount := none, refundStatus := none }

/-- The booking fields the claims are about: status, stay dates
(millisecond timestamps), `bookingDetails.totalNights`,
`bookingDetails.numberOfRooms`, the pricing snapshot, and the
cancellation sub-record.  Money amounts are rationals (JavaScript
numbers with exact arithmetic on the inputs at hand). -/
structure Booking where
  status : BookingStatus
  checkIn : Int
  checkOut : Int
  totalNights : Int
  numberOfRooms : Nat
  roomPrice : ℚ
  taxes : ℚ
  serviceFee : ℚ
  discount : ℚ
  totalAmount : ℚ
  cancellation : CancellationRecord
deriving DecidableEq, Repr

/-- `(checkInDate.getTime() - now.getTime()) / (1000 * 3600)` of the
customer cancel handler: hours until check-in at cancellation time. -/
def hoursUntilCheckIn (checkIn now : Int) : ℚ :=
  ((checkIn - now : Int) : ℚ) / (1000 * 3600)

/-- The tiered refund of `PUT /api/customer/bookings/:id/cancel`:
`hoursDiff > 24` gives 80% of `pricing.totalAmount`, else
`hoursDiff > 12` gives 50%, else zero. -/
def customerCancelRefund (hours total : ℚ) : ℚ :=
  if 24 < hours then (0.8 : ℚ) * total
  else if 12 < hours then (0.5 : ℚ) * total
  else 0

/-- `PUT /api/customer/bookings/:id/cancel`: legal only from `pending`
or `confirmed`; sets status `cancelled` and writes the cancellation
sub-record with the tiered refund and
`refundStatus = refundAmount > 0 ? 'pending' : 'not_applicable'`. -/
def customerCancel (b : Booking) (now : Int) (reason : Option String) :
    Except String Booking :=
  if b.status = BookingStatus.pending ∨ b.status = BookingStatus.confirmed then
    let refund := customerCancelRefund (hoursUntilCheckIn b.checkIn now) b.totalAmount
    Except.ok { b with
      status := BookingStatus.cancelled
      cancellation :=
        { isCancelled := true
          cancelledBy := some "customer"
          reason := some (reason.getD "Cancelled by customer")
          refundAmount := some refund
          refundStatus :=
            some (if 0 < refund then RefundStatus.pending else RefundStatus.not_applicable) } }
  else Except.error "Booking cannot be cancelled"

/-- `POST /api/hotel/bookings/:id/cancel`: legal only from `pending` or
`confirmed`; sets status `cancelled`, fills who/when/why, and only when
the request supplies `refundAmount` stores it verbatim with
`refundStatus = refundAmount > 0 ? 'pending' : undefined` (assigning
`undefined` leaves the path unset). -/
def hotelCancel (b : Booking) (reason : Option String) (refundAmountReq : Option ℚ) :
    Except String Booking :=
  if b.status = BookingStatus.pending ∨ b.status = BookingStatus.confirmed then
    let c1 : CancellationRecord :=
      { b.cancellation with
        isCancelled := true
        cancelledBy := some "hotel"
        reason := some (reason.getD "Cancelled by hotel") }
    let c2 : CancellationRecord :=
      match refundAmountReq with
      | some r =>
          { c1 with refundAmount := some r
                    refundStatus := if 0 < r then some RefundStatus.pending else none }
      | none => c1
    Except.ok { b with status := BookingStatus.cancelled, cancellation := c2 }
  else Except.error "Only pending or confirmed bookings can be cancelled"

/-- The three actions of `POST /api/hotel/bookings/:id/:action`
(`validActionStatusMap`). -/
inductive HotelAction
  | confirm
  | check_in
  | check_out
deriving DecidableEq, Repr

/-- The guarded source states of each hotel booking action: `confirm`
needs `pending`; `check-in` needs `confirmed` (or is tolerated from
`checked_in` itself); `check-out` needs `checked_in`. -/
def actionLegalSource (a : HotelAction) (st : BookingStatus) : Bool :=
  match a with
  | HotelAction.confirm => st = BookingStatus.pending
  | HotelAction.check_in => st = BookingStatus.confirmed || st = BookingStatus.checked_in
  | HotelAction.check_out => st = BookingStatus.checked_in

/-- The required-source-state wording inside each guard's error message. -/
def requiredStateText (a : HotelAction) : String :=
  match a with
  | HotelAction.confirm => "pending"
  | HotelAction.check_in => "confirmed"
  | HotelAction.check_out => "checked-in"

/-- The state guardrails and status write of
`POST /api/hotel/bookings/:id/:action`: each action checks its source
state and returns a 400 message on violation, otherwise stores the
mapped target status. -/
def hotelBookingAction (a : HotelAction) (st : BookingStatus) :
    Except String BookingStatus :=
  match a with
  | HotelAction.confirm =>
      if st = BookingStatus.pending then Except.ok BookingStatus.confirmed
      else Except.error "Only pending bookings can be confirmed"
  | HotelAction.check_in =>
      if st = BookingStatus.confirmed ∨ st = BookingStatus.checked_in then
        Except.ok BookingStatus.checked_in
      else Except.error "Booking must be confirmed before check-in"
  | HotelAction.check_out =>
      if st = BookingStatus.checked_in then Except.ok BookingStatus.checked_out
      else Except.error "Booking must be checked-in before check-out"

/-- `PUT /api/customer/bookings/:id/status`: the allowed list is
`['no_show']`, and when the requested status is `no_show` the booking's
status is overwritten with `no_show` with no guard on its prior
state. -/
def customerUpdateStatus (requested : String) (st : BookingStatus) :
    Except String BookingStatus :=
  if requested = "no_show" then
    Except.ok (if requested = "no_show" then BookingStatus.no_show else st)
  else Except.error "Status not allowed"

/-- Terminal statuses per the state machine (no further transition is
permitted out of them). -/
def isTerminalStatus (s : BookingStatus) : Bool :=
  s = BookingStatus.cancelled || s = BookingStatus.rejected
    || s = BookingStatus.completed || s = BookingStatus.no_show

/-- A concrete pending booking with `totalAmount` 1000 whose check-in is
30 hours after time zero. -/
def sampleBooking : Booking :=
  { status := BookingStatus.pending
    checkIn := 108000000
    checkOut := 194400000
    totalNights := 1
    numberOfRooms := 1
    roomPrice := 1000
    taxes := 0
    serviceFee := 0
    discount := 0
    totalAmount := 1000
    cancellation := emptyCancellation }

/-- `Math.ceil((checkOut - checkIn) / (1000 * 60 * 60 * 24))`: the night
count computed by the schema hook, by booking creation, by the quote
endpoint and by the modify endpoint. -/
def computeTotalNights (checkIn checkOut : Int) : Int :=
  ⌈((checkOut - checkIn : Int) : ℚ) / (1000 * 60 * 60 * 24 : ℚ)⌉

/-- The booking schema's `pre('validate')` hook: when both stay dates
are present (always, in this model), recompute
`bookingDetails.totalNights` before the document is persisted. -/
def bookingPreValidate (b : Booking) : Booking :=
  { b with totalNights := computeTotalNights b.checkIn b.checkOut }

/-- The night-count invariant stated by the specification:
`totalNights = ceil((checkOut - checkIn) / 86400000 ms)` over the
stored dates. -/
def nightsInvariant (b : Booking) : Prop :=
  b.totalNights = ⌈((b.checkOut - b.checkIn : Int) : ℚ) / 86400000⌉

/-- The document built by `POST /api/customer/bookings` once the
availability gate has passed, after the save (which runs the
`pre('validate')` hook): pricing computed from the room config, status
defaulted to `pending`. -/
def createBooking (basePrice taxPercent serviceFee : ℚ) (checkIn checkOut : Int)
    (numberOfRooms : Nat) : Booking :=
  let nights := computeTotalNights checkIn checkOut
  let roomPrice := basePrice * (nights : ℚ) * (numberOfRooms : ℚ)
  let taxes := roomPrice * (taxPercent / 100)
  bookingPreValidate
    { status := BookingStatus.pending
      checkIn := checkIn
      checkOut := checkOut
      totalNights := 0
      numberOfRooms := numberOfRooms
      roomPrice := roomPrice
      taxes := taxes
      serviceFee := serviceFee
      discount := 0
      totalAmount := roomPrice + taxes + serviceFee
      cancellation := emptyCancellation }

/-- `PUT /api/customer/bookings/:id/modify`: guard on `pending` or
`confirmed`, reject non-positive night counts, re-run the availability
aggregation over the other bookings (`_id: { $ne: booking._id }`) for
the new range, then overwrite dates, room count, `totalNights` and the
pricing snapshot.  A requested room count of zero falls back to the
stored one (JavaScript `||`). -/
def modifyBooking (b : Booking) (roomTotalRooms : Nat)
    (basePrice taxPercent serviceFee : ℚ) (otherRows : List BookingRow)
    (newCheckIn newCheckOut : Int) (reqRooms : Option Nat) : Except String Booking :=
  if ¬(b.status = BookingStatus.pending ∨ b.status = BookingStatus.confirmed) then
    Except.error "Only pending/confirmed bookings can be modified"
  else
    let nights := computeTotalNights newCheckIn newCheckOut
    if nights ≤ 0 then Except.error "Invalid date range"
    else
      let requested : Nat :=
        match reqRooms with
        | some n => if n = 0 then b.numberOfRooms else n
        | none => b.numberOfRooms
      let alreadyBooked := bookedCount otherRows ⟨newCheckIn, newCheckOut⟩
      let available : Int := (roomTotalRooms : Int) - (alreadyBooked : Int)
      if available < (requested : Int) then
        Except.error ("Only " ++ toString available ++ " rooms available for new dates")
      else
        let base := basePrice * (nights : ℚ) * (requested : ℚ)
        let newTaxes := base * (taxPercent / 100)
        Except.ok { b with
          checkIn := newCheckIn
          checkOut := newCheckOut
          numberOfRooms := requested
          totalNights := nights
          roomPrice := base
          taxes := newTaxes
          serviceFee := serviceFee
          totalAmount := base + newTaxes + serviceFee }

/-- JavaScript `Math.round`: half-up rounding. -/
def jsRound (q : ℚ) : Int := ⌊q + 1 / 2⌋

/-- JavaScript `toUpperCase` as used on promo codes. -/
def jsToUpperCase (s : String) : String := ⟨s.data.map Char.toUpper⟩

/-- The response body of `POST /api/customer/bookings/quote`. -/
structure QuoteResult where
  nights : Int
  base : ℚ
  taxes : ℚ
  serviceFee : ℚ
  discountAmount : ℚ
  total : ℚ
  depositAmount : Int
deriving DecidableEq, Repr

/-- `POST /api/customer/bookings/quote`: nights, base, taxes, service
fee, a discount of `min(base * 0.10, 500)` when the supplied code
upper-cases to `WELCOME10` (any other supplied code silently yields
zero discount), `total = base + taxes + serviceFee - discountAmount`,
and `depositAmount = Math.round(total * 0.20)`. -/
def quoteBooking (basePrice taxPercent serviceFee : ℚ) (checkIn checkOut : Int)
    (numberOfRooms : Nat) (promoCode : Option String) : QuoteResult :=
  let nights := computeTotalNights checkIn checkOut
  let base := basePrice * (nights : ℚ) * (numberOfRooms : ℚ)
  let taxes := base * (taxPercent / 100)
  let discountAmount : ℚ :=
    match promoCode with
    | some c => if jsToUpperCase c = "WELCOME10" then min (base * (0.10 : ℚ)) 500 else 0
    | none => 0
  let total := base + taxes + serviceFee - discountAmount
  { nights := nights
    base := base
    taxes := taxes
    serviceFee := serviceFee
    discountAmount := discountAmount
    total := total
    depositAmount := jsRound (total * (0.20 : ℚ)) }

/-- `POST /api/customer/bookings/:id/promo`: guard on `pending` or
`confirmed`; a code upper-casing to `WELCOME10` stores
`min(roomPrice * 0.10, 500)` as the discount and rewrites the total;
any other supplied code, and an absent code, hit the `else` branch and
are rejected with `Invalid promo code`. -/
def applyPromoCode (b : Booking) (code : Option String) : Except String Booking :=
  if ¬(b.status = BookingStatus.pending ∨ b.status = BookingStatus.confirmed) then
    Except.error "Cannot apply promo to this booking status"
  else
    match code with
    | some c =>
        if jsToUpperCase c = "WELCOME10" then
          let discountAmount := min (b.roomPrice * (0.10 : ℚ)) 500
          Except.ok { b with
            discount := discountAmount
            totalAmount := b.roomPrice + b.taxes + b.serviceFee - discountAmount }
        else Except.error "Invalid promo code"
    | none => Except.error "Invalid promo code"

/-- A review as seen by the rating aggregator: owning hotel, overall
rating (`ratings.overall`), approval flag. -/
structure Review where
  hotelId : Nat
  overall : ℚ
  isApproved : Bool
deriving DecidableEq, Repr

/-- `updateHotelRating`: aggregate `$avg` of `ratings.overall` and
count over the hotel's approved reviews (defaulting to average 0 and
count 0 when none match), stored as
`rating.average = Math.round(avg * 10) / 10` and
`rating.totalReviews = count`. -/
def updateHotelRating (reviews : List Review) (hid : Nat) : ℚ × Nat :=
  let approved := reviews.filter (fun r => r.hotelId == hid && r.isApproved)
  let total := approved.length
  let avg : ℚ := if total = 0 then 0 else ((approved.map (fun r => r.overall)).sum) / (total : ℚ)
  (((jsRound (avg * 10) : Int) : ℚ) / 10, total)

/-- A review mutation: the schema hooks fire after `save` (create or
update through the document) and after `findOneAndUpdate` /
`findOneAndDelete`. -/
inductive ReviewOp
  | create (r : Review)
  | update (i : Nat) (r : Review)
  | delete (i : Nat)
deriving DecidableEq, Repr

/-- The review list after a mutation. -/
def applyReviewOp (reviews : List Review) : ReviewOp → List Review
  | ReviewOp.create r => reviews ++ [r]
  | ReviewOp.update i r => reviews.set i r
  | ReviewOp.delete i => reviews.eraseIdx i

/-- The hotel's cached rating right after a review mutation: the post
hook recomputes `updateHotelRating` over the mutated review list. -/
def hotelCacheAfter (reviews : List Review) (op : ReviewOp) (hid : Nat) : ℚ × Nat :=
  updateHotelRating (applyReviewOp reviews op) hid

/-- Modelled from the spec: the independently recomputed aggregate the
cache must equal — `average = round(mean(overall ratings of approved
reviews) * 10) / 10` and `totalReviews = count(approved reviews)`.
(The mean of an empty list is read as 0, matching the code's default.) -/
def specHotelAggregate (reviews : List Review) (hid : Nat) : ℚ × Nat :=
  let approved := reviews.filter (fun r => r.hotelId == hid && r.isApproved)
  (((jsRound (((approved.map (fun r => r.overall)).sum / (approved.length : ℚ)) * 10) : Int) : ℚ)
      / 10,
    approved.length)

/-- `POST /api/customer/bookings/:id/rebook`: a new `pending` booking
whose check-in is 30 days after the current date, whose length is the
original `totalNights` (JavaScript `|| 1` turns a zero/absent count
into 1), and whose pricing snapshot is copied verbatim — no
availability aggregation and no repricing occur on this path. -/
def rebookBooking (original : Booking) (now : Int) : Booking :=
  let nights := if original.totalNights = 0 then 1 else original.totalNights
  let start := now + 30 * 86400000
  { status := BookingStatus.pending
    checkIn := start
    checkOut := start + nights * 86400000
    totalNights := nights
    numberOfRooms := original.numberOfRooms
    roomPrice := original.roomPrice
    taxes := original.taxes
    serviceFee := original.serviceFee
    discount := original.discount
    totalAmount := original.totalAmount
    cancellation := emptyCancellation }

/-- The booking produced by a successful sample modify request used as
a witness: two nights at base price 100, 10% tax, service fee 50. -/
def modifiedSample : Booking :=
  { sampleBooking with
    checkIn := 0
    checkOut := 172800000
    numberOfRooms := 1
    totalNights := 2
    roomPrice := 200
    taxes := 20
    serviceFee := 50
    totalAmount := 270 }

end HotelBooking

namespace HotelBooking

/-- Claim C1: the two-clause `$or` disjunction of the source does NOT
coincide with the standard interval-overlap predicate.  The standard
predicate holds for an existing booking `[0, 10 days)` against the
queried range `[2 days, 5 days)` (the existing stay strictly contains
the query), yet neither `$or` clause matches, so the availability
aggregation counts zero committed rooms from this pending booking.
(The converse direction does hold for genuine intervals: the `$or`
filter implies standard overlap whenever `checkIn < checkOut`, so the
filter is strictly weaker, missing exactly the containment cases.) -/
theorem mongo_or_misses_containing_booking :
    stdOverlap ⟨0, 864000000⟩ ⟨172800000, 432000000⟩ = true
      ∧ mongoOrOverlap ⟨0, 864000000⟩ ⟨172800000, 432000000⟩ = false
      ∧ bookedCount [⟨⟨0, 864000000⟩, BookingStatus.pending, 1⟩] ⟨172800000, 432000000⟩ = 0 := by
  decide

/-- Claim C2: the GET availability computation floors at zero, hence is
never negative; the creation gate accepts exactly when the (floored)
remaining count is at least the requested number of rooms (for any
request with at least one room, as the validator enforces); and a
rejection surfaces the raw `totalRooms - bookedCount` value in the error
message. -/
theorem availability_floor_and_admission (totalRooms : Nat) (rows : List BookingRow)
    (q : DateRange) (n : Nat) (hn : 1 ≤ n) :
    0 ≤ availabilityRemaining totalRooms rows q
      ∧ availabilityRemaining totalRooms rows q
          = max 0 ((totalRooms : Int) - (bookedCount rows q : Int))
      ∧ (createBookingDecision totalRooms rows q n = CreateDecision.created
          ↔ (n : Int) ≤ availabilityRemaining totalRooms rows q)
      ∧ (∀ s, createBookingDecision totalRooms rows q n = CreateDecision.rejected s →
          s = (totalRooms : Int) - (bookedCount rows q : Int))
      ∧ (∀ s, createBookingDecision totalRooms rows q n = CreateDecision.rejected s →
          (bookedCount rows q : Int) ≤ (totalRooms : Int) →
            s = availabilityRemaining totalRooms rows q) := by
  refine ⟨by simp [availabilityRemaining], rfl, ?_, ?_, ?_⟩
  · unfold createBookingDecision availabilityRemaining
    dsimp only
    by_cases hlt : ((totalRooms : Int) - (bookedCount rows q : Int)) < (n : Int)
    · rw [if_pos hlt]
      constructor
      · intro hc; exact CreateDecision.noConfusion hc
      · intro hle
        rw [le_max_iff] at hle
        omega
    · rw [if_neg hlt]
      constructor
      · intro _
        rw [le_max_iff]
        omega
      · intro _; rfl
  · intro s h
    unfold createBookingDecision at h
    dsimp only at h
    by_cases hlt : ((totalRooms : Int) - (bookedCount rows q : Int)) < (n : Int)
    · rw [if_pos hlt] at h
      injection h with h1
      exact h1.symm
    · rw [if_neg hlt] at h
      exact CreateDecision.noConfusion h
  · intro s h hle
    unfold createBookingDecision at h
    dsimp only at h
    by_cases hlt : ((totalRooms : Int) - (bookedCount rows q : Int)) < (n : Int)
    · rw [if_pos hlt] at h
      injection h with h1
      unfold availabilityRemaining
      rw [max_eq_right (by omega)]
      omega
    · rw [if_neg hlt] at h
      exact CreateDecision.noConfusion h

/-- Witness for C2 at a concrete state: three total rooms, one pending
overlapping booking holding two rooms, one room requested. -/
theorem availability_floor_and_admission_witness :
    (1 : Nat) ≤ 1
      ∧ (0 ≤ availabilityRemaining 3 [⟨⟨0, 5⟩, BookingStatus.pending, 2⟩] ⟨0, 5⟩
          ∧ availabilityRemaining 3 [⟨⟨0, 5⟩, BookingStatus.pending, 2⟩] ⟨0, 5⟩
              = max 0 ((3 : Int) - (bookedCount [⟨⟨0, 5⟩, BookingStatus.pending, 2⟩] ⟨0, 5⟩ : Int))
          ∧ (createBookingDecision 3 [⟨⟨0, 5⟩, BookingStatus.pending, 2⟩] ⟨0, 5⟩ 1
                = CreateDecision.created
              ↔ (1 : Int) ≤ availabilityRemaining 3 [⟨⟨0, 5⟩, BookingStatus.pending, 2⟩] ⟨0, 5⟩)
          ∧ (∀ s, createBookingDecision 3 [⟨⟨0, 5⟩, BookingStatus.pending, 2⟩] ⟨0, 5⟩ 1
                = CreateDecision.rejected s →
              s = (3 : Int) - (bookedCount [⟨⟨0, 5⟩, BookingStatus.pending, 2⟩] ⟨0, 5⟩ : Int))
          ∧ (∀ s, createBookingDecision 3 [⟨⟨0, 5⟩, BookingStatus.pending, 2⟩] ⟨0, 5⟩ 1
                = CreateDecision.rejected s →
              (bookedCount [⟨⟨0, 5⟩, BookingStatus.pending, 2⟩] ⟨0, 5⟩ : Int) ≤ (3 : Int) →
                s = availabilityRemaining 3 [⟨⟨0, 5⟩, BookingStatus.pending, 2⟩] ⟨0, 5⟩)) :=
  ⟨by decide, availability_floor_and_admission 3 [⟨⟨0, 5⟩, BookingStatus.pending, 2⟩] ⟨0, 5⟩ 1
    (by decide)⟩

/-- Claim C3 counterexample: the hotel-side cancel endpoint is also a
cancellation of a pending booking, yet it does not compute the tiered
refund.  With check-in 30 hours away (tier says 80% of 1000 = 800) and a
caller-supplied `refundAmount` of 100, the stored refund is 100, not
800. -/
theorem hotel_cancel_refund_not_tiered :
    24 < hoursUntilCheckIn sampleBooking.checkIn 0
      ∧ ((hotelCancel sampleBooking none (some 100)).toOption.map
            (fun b => b.cancellation.refundAmount)) = some (some 100)
      ∧ (100 : ℚ) ≠ (0.8 : ℚ) * sampleBooking.totalAmount := by
  refine ⟨by norm_num [hoursUntilCheckIn, sampleBooking], by rfl, by norm_num [sampleBooking]⟩

/-- Claim C3 amended: the tiered refund policy (more than 24 hours gives
80%, more than 12 and at most 24 gives 50%, at most 12 gives zero, with
`refundStatus` `pending` exactly when the refund is positive and
`not_applicable` otherwise) governs the customer-side cancel endpoint;
the hotel-side cancel endpoint instead stores a caller-supplied amount
(see the claim about that endpoint). -/
theorem customer_cancel_tiered_refund (b : Booking) (now : Int) (reason : Option String)
    (h : b.status = BookingStatus.pending ∨ b.status = BookingStatus.confirmed) :
    ∃ c : Booking, customerCancel b now reason = Except.ok c
      ∧ c.status = BookingStatus.cancelled
      ∧ (24 < hoursUntilCheckIn b.checkIn now →
          c.cancellation.refundAmount = some ((0.8 : ℚ) * b.totalAmount))
      ∧ (12 < hoursUntilCheckIn b.checkIn now ∧ hoursUntilCheckIn b.checkIn now ≤ 24 →
          c.cancellation.refundAmount = some ((0.5 : ℚ) * b.totalAmount))
      ∧ (hoursUntilCheckIn b.checkIn now ≤ 12 →
          c.cancellation.refundAmount = some 0)
      ∧ c.cancellation.refundStatus =
          some (if 0 < customerCancelRefund (hoursUntilCheckIn b.checkIn now) b.totalAmount
                then RefundStatus.pending else RefundStatus.not_applicable) := by
  unfold customerCancel
  rw [if_pos h]
  refine ⟨_, rfl, rfl, ?_, ?_, ?_, rfl⟩
  · intro ht
    simp only [customerCancelRefund, if_pos ht]
  · rintro ⟨ht12, ht24⟩
    simp only [customerCancelRefund]
    rw [if_neg (by linarith), if_pos ht12]
  · intro ht
    simp only [customerCancelRefund]
    rw [if_neg (by linarith), if_neg (by linarith)]

/-- Witness for the amended C3 at the concrete pending booking whose
check-in is 30 hours away. -/
theorem customer_cancel_tiered_refund_witness :
    (sampleBooking.status = BookingStatus.pending
        ∨ sampleBooking.status = BookingStatus.confirmed)
      ∧ ∃ c : Booking, customerCancel sampleBooking 0 none = Except.ok c
          ∧ c.status = BookingStatus.cancelled
          ∧ (24 < hoursUntilCheckIn sampleBooking.checkIn 0 →
              c.cancellation.refundAmount = some ((0.8 : ℚ) * sampleBooking.totalAmount))
          ∧ (12 < hoursUntilCheckIn sampleBooking.checkIn 0
                ∧ hoursUntilCheckIn sampleBooking.checkIn 0 ≤ 24 →
              c.cancellation.refundAmount = some ((0.5 : ℚ) * sampleBooking.totalAmount))
          ∧ (hoursUntilCheckIn sampleBooking.checkIn 0 ≤ 12 →
              c.cancellation.refundAmount = some 0)
          ∧ c.cancellation.refundStatus =
              some (if 0 < customerCancelRefund (hoursUntilCheckIn sampleBooking.checkIn 0)
                          sampleBooking.totalAmount
                    then RefundStatus.pending else RefundStatus.not_applicable) :=
  ⟨Or.inl rfl, customer_cancel_tiered_refund sampleBooking 0 none (Or.inl rfl)⟩

/-- Claim C9: the hotel-side cancel stores a supplied `refundAmount`
verbatim, sets `refundStatus` to `pending` exactly when that amount is
positive and leaves it unset otherwise, and writes no refund fields at
all when no amount is supplied. -/
theorem hotel_cancel_refund_passthrough (b : Booking) (reason : Option String) (r : ℚ)
    (h : b.status = BookingStatus.pending ∨ b.status = BookingStatus.confirmed) :
    (∃ c : Booking, hotelCancel b reason (some r) = Except.ok c
        ∧ c.cancellation.refundAmount = some r
        ∧ c.cancellation.refundStatus
            = (if 0 < r then some RefundStatus.pending else none))
      ∧ (∃ c : Booking, hotelCancel b reason none = Except.ok c
          ∧ c.cancellation.refundAmount = b.cancellation.refundAmount
          ∧ c.cancellation.refundStatus = b.cancellation.refundStatus) := by
  unfold hotelCancel
  rw [if_pos h, if_pos h]
  exact ⟨⟨_, rfl, rfl, rfl⟩, ⟨_, rfl, rfl, rfl⟩⟩

/-- Witness for C9 at the concrete pending booking with a supplied
refund of 100. -/
theorem hotel_cancel_refund_passthrough_witness :
    (sampleBooking.status = BookingStatus.pending
        ∨ sampleBooking.status = BookingStatus.confirmed)
      ∧ ((∃ c : Booking, hotelCancel sampleBooking none (some 100) = Except.ok c
            ∧ c.cancellation.refundAmount = some 100
            ∧ c.cancellation.refundStatus
                = (if (0 : ℚ) < 100 then some RefundStatus.pending else none))
          ∧ (∃ c : Booking, hotelCancel sampleBooking none none = Except.ok c
              ∧ c.cancellation.refundAmount = sampleBooking.cancellation.refundAmount
              ∧ c.cancellation.refundStatus = sampleBooking.cancellation.refundStatus)) :=
  ⟨Or.inl rfl, hotel_cancel_refund_passthrough sampleBooking none 100 (Or.inl rfl)⟩

/-- Claim C4 counterexample: the customer status endpoint marks
`no_show` from any prior state with no guard, so a transition out of the
terminal state `cancelled` silently succeeds and changes the status —
the claim's universal guarantee fails for the `no_show` transition. -/
theorem no_show_overwrites_terminal_status :
    isTerminalStatus BookingStatus.cancelled = true
      ∧ (customerUpdateStatus "no_show" BookingStatus.cancelled).toOption
          = some BookingStatus.no_show
      ∧ BookingStatus.no_show ≠ BookingStatus.cancelled := by
  refine ⟨rfl, by rfl, by decide⟩

/-- Claim C4 amended: for the guarded transitions (confirm, check-in,
check-out on the hotel action endpoint, and the hotel cancel endpoint)
every attempt from an illegal source state fails with an error whose
message names the required source state, no new status is produced (the
booking keeps its status), and in particular check-out from `pending`
fails naming `checked-in`; the unguarded `no_show` marking is the
exception recorded by the counterexample. -/
theorem illegal_transition_rejected :
    (∀ (a : HotelAction) (st : BookingStatus), actionLegalSource a st = false →
        ∃ msg : String, hotelBookingAction a st = Except.error msg
          ∧ (requiredStateText a).toList.IsInfix msg.toList)
      ∧ hotelBookingAction HotelAction.check_out BookingStatus.pending
          = Except.error "Booking must be checked-in before check-out"
      ∧ (∀ (a : HotelAction) (st : BookingStatus), actionLegalSource a st = false →
          (hotelBookingAction a st).toOption = none)
      ∧ (∀ (b : Booking) (reason : Option String) (r : Option ℚ),
          ¬(b.status = BookingStatus.pending ∨ b.status = BookingStatus.confirmed) →
            hotelCancel b reason r
              = Except.error "Only pending or confirmed bookings can be cancelled") := by
  refine ⟨?_, rfl, ?_, ?_⟩
  case refine_2 =>
    intro a st h
    cases a <;> cases st <;>
      simp_all [actionLegalSource, hotelBookingAction, Except.toOption]
  · intro a st h
    cases a with
    | confirm =>
        have hne : st ≠ BookingStatus.pending := by
          intro hst; subst hst; simp [actionLegalSource] at h
        exact ⟨"Only pending bookings can be confirmed",
          by simp [hotelBookingAction, hne], by decide⟩
    | check_in =>
        have hne1 : st ≠ BookingStatus.confirmed := by
          intro hst; subst hst; simp [actionLegalSource] at h
        have hne2 : st ≠ BookingStatus.checked_in := by
          intro hst; subst hst; simp [actionLegalSource] at h
        exact ⟨"Booking must be confirmed before check-in",
          by simp [hotelBookingAction, hne1, hne2], by decide⟩
    | check_out =>
        have hne : st ≠ BookingStatus.checked_in := by
          intro hst; subst hst; simp [actionLegalSource] at h
        exact ⟨"Booking must be checked-in before check-out",
          by simp [hotelBookingAction, hne], by decide⟩
  · intro b reason r h
    unfold hotelCancel
    rw [if_neg h]

/-- Witness for the amended C4: check-out attempted on a pending
booking, and a hotel cancel attempted on a checked-out booking. -/
theorem illegal_transition_rejected_witness :
    (actionLegalSource HotelAction.check_out BookingStatus.pending = false
      ∧ ∃ msg : String,
          hotelBookingAction HotelAction.check_out BookingStatus.pending = Except.error msg
            ∧ (requiredStateText HotelAction.check_out).toList.IsInfix msg.toList)
      ∧ (¬({ sampleBooking with status := BookingStatus.checked_out }.status
              = BookingStatus.pending
            ∨ { sampleBooking with status := BookingStatus.checked_out }.status
              = BookingStatus.confirmed)
          ∧ hotelCancel { sampleBooking with status := BookingStatus.checked_out } none none
              = Except.error "Only pending or confirmed bookings can be cancelled") :=
  ⟨⟨rfl, illegal_transition_rejected.1 HotelAction.check_out BookingStatus.pending rfl⟩,
    ⟨by decide,
      illegal_transition_rejected.2.2.2 { sampleBooking with status := BookingStatus.checked_out }
        none none (by decide)⟩⟩

lemma computeTotalNights_two : computeTotalNights 0 172800000 = 2 := by
  unfold computeTotalNights
  rw [Int.ceil_eq_iff]
  constructor <;> norm_num

lemma computeTotalNights_june : computeTotalNights 1748736000000 1748908800000 = 2 := by
  unfold computeTotalNights
  rw [Int.ceil_eq_iff]
  constructor <;> norm_num

lemma jsRound_forty : jsRound (40 : ℚ) = 40 := by
  unfold jsRound
  rw [Int.floor_eq_iff]
  constructor <;> norm_num

lemma jsRound_fortyfive : jsRound (45 : ℚ) = 45 := by
  unfold jsRound
  rw [Int.floor_eq_iff]
  constructor <;> norm_num

lemma jsRound_fourfifty : jsRound (450 : ℚ) = 450 := by
  unfold jsRound
  rw [Int.floor_eq_iff]
  constructor <;> norm_num

lemma modify_sample_eq :
    modifyBooking sampleBooking 5 100 10 50 [] 0 172800000 none
      = Except.ok modifiedSample := by
  simp only [modifyBooking, sampleBooking, computeTotalNights_two, bookedCount,
    List.filter_nil, List.map_nil, List.sum_nil]
  norm_num [modifiedSample, sampleBooking, emptyCancellation]

/-- Claim C5: `bookingDetails.totalNights` equals
`ceil((checkOut - checkIn) / 86400000 ms)` over the stored dates after
booking creation (the `pre('validate')` hook runs on save), after any
save of a booking document, and after any successful modify. -/
theorem total_nights_formula :
    (∀ (bp tp sf : ℚ) (ci co : Int) (n : Nat),
        nightsInvariant (createBooking bp tp sf ci co n))
      ∧ (∀ b : Booking, nightsInvariant (bookingPreValidate b))
      ∧ (∀ (b : Booking) (tr : Nat) (bp tp sf : ℚ) (rows : List BookingRow)
          (ci co : Int) (rq : Option Nat) (c : Booking),
          modifyBooking b tr bp tp sf rows ci co rq = Except.ok c → nightsInvariant c) := by
  have hden : (1000 * 60 * 60 * 24 : ℚ) = 86400000 := by norm_num
  refine ⟨?_, ?_, ?_⟩
  · intro bp tp sf ci co n
    unfold createBooking bookingPreValidate nightsInvariant computeTotalNights
    dsimp only
    rw [hden]
  · intro b
    unfold bookingPreValidate nightsInvariant computeTotalNights
    dsimp only
    rw [hden]
  · intro b tr bp tp sf rows ci co rq c h
    unfold modifyBooking at h
    dsimp only at h
    split_ifs at h
    injection h with h1
    subst h1
    unfold nightsInvariant computeTotalNights
    dsimp only
    rw [hden]

/-- Witness for C5: a successful modify of the sample booking to a
two-night stay, whose stored night count satisfies the invariant. -/
theorem total_nights_formula_witness :
    modifyBooking sampleBooking 5 100 10 50 [] 0 172800000 none = Except.ok modifiedSample
      ∧ nightsInvariant modifiedSample :=
  ⟨modify_sample_eq,
    total_nights_formula.2.2 sampleBooking 5 100 10 50 [] 0 172800000 none modifiedSample
      modify_sample_eq⟩

/-- Claim C6: after every review create, update, or delete, the hotel's
cached rating equals the independently recomputed aggregate over the
approved reviews of the mutated list; on the spec's example, creating a
third approved review rated 3 next to ratings 5 and 4 yields average 4
with count 3, and deleting the rating-3 review yields average 4.5 with
count 2. -/
theorem review_cache_matches_aggregate :
    (∀ (rs : List Review) (op : ReviewOp) (hid : Nat),
        hotelCacheAfter rs op hid = specHotelAggregate (applyReviewOp rs op) hid)
      ∧ hotelCacheAfter [⟨1, 5, true⟩, ⟨1, 4, true⟩] (ReviewOp.create ⟨1, 3, true⟩) 1 = (4, 3)
      ∧ hotelCacheAfter [⟨1, 5, true⟩, ⟨1, 4, true⟩, ⟨1, 3, true⟩] (ReviewOp.delete 2) 1
          = ((4.5 : ℚ), 2) := by
  refine ⟨?_, ?_, ?_⟩
  · intro rs op hid
    unfold hotelCacheAfter updateHotelRating specHotelAggregate
    dsimp only
    by_cases h :
        ((applyReviewOp rs op).filter (fun r => r.hotelId == hid && r.isApproved)).length = 0
    · rw [if_pos h, List.length_eq_zero] at *
      rw [h]
      simp
    · rw [if_neg h]
  · simp [hotelCacheAfter, applyReviewOp, updateHotelRating, List.filter]
    norm_num [jsRound_forty]
  · simp [hotelCacheAfter, applyReviewOp, updateHotelRating, List.filter, List.eraseIdx]
    norm_num [jsRound_fortyfive]

/-- Claim C7 counterexample: supplying the unknown code `FAKE20` to the
quote operation is not rejected — the quote computation has no error
path for promo codes at all and silently yields a zero discount on a
base of 6000. -/
theorem quote_unknown_code_silently_ignored :
    (quoteBooking 3000 10 50 0 172800000 1 (some "FAKE20")).discountAmount = 0
      ∧ jsToUpperCase "FAKE20" ≠ "WELCOME10"
      ∧ (quoteBooking 3000 10 50 0 172800000 1 (some "FAKE20")).base = 6000 := by
  have hne : jsToUpperCase "FAKE20" ≠ "WELCOME10" := by decide
  refine ⟨?_, hne, ?_⟩
  · simp [quoteBooking, hne]
  · simp [quoteBooking, computeTotalNights_two]
    norm_num

/-- Claim C7 amended: `WELCOME10` yields `min(0.10 * base, 500)` (500 on
a base of 6000); the promo-application endpoint rejects any other
supplied code — and an omitted code — with `Invalid promo code`; the
quote operation applies no discount when the code is omitted, and
silently applies zero discount (no error) when an unknown code is
supplied. -/
theorem promo_code_validation (b : Booking) (c : String)
    (hb : b.status = BookingStatus.pending ∨ b.status = BookingStatus.confirmed)
    (hc : jsToUpperCase c ≠ "WELCOME10") :
    applyPromoCode b (some c) = Except.error "Invalid promo code"
      ∧ applyPromoCode b none = Except.error "Invalid promo code"
      ∧ (∃ b2 : Booking, applyPromoCode b (some "WELCOME10") = Except.ok b2
          ∧ b2.discount = min (b.roomPrice * (0.10 : ℚ)) 500
          ∧ b2.totalAmount = b.roomPrice + b.taxes + b.serviceFee - b2.discount)
      ∧ (∀ (bp tp sf : ℚ) (ci co : Int) (n : Nat),
          (quoteBooking bp tp sf ci co n none).discountAmount = 0)
      ∧ (quoteBooking 3000 10 50 0 172800000 1 (some "WELCOME10")).discountAmount = 500 := by
  unfold applyPromoCode
  rw [if_neg (not_not_intro hb), if_neg (not_not_intro hb), if_neg (not_not_intro hb)]
  dsimp only
  refine ⟨by rw [if_neg hc], rfl, ?_, ?_, ?_⟩
  · rw [if_pos (show jsToUpperCase "WELCOME10" = "WELCOME10" by decide)]
    exact ⟨_, rfl, rfl, rfl⟩
  · intro bp tp sf ci co n
    rfl
  · simp [quoteBooking, jsToUpperCase, computeTotalNights_two]
    norm_num

/-- Witness for the amended C7 at the sample pending booking and the
unknown code `FAKE20`. -/
theorem promo_code_validation_witness :
    (sampleBooking.status = BookingStatus.pending
        ∨ sampleBooking.status = BookingStatus.confirmed)
      ∧ jsToUpperCase "FAKE20" ≠ "WELCOME10"
      ∧ (applyPromoCode sampleBooking (some "FAKE20") = Except.error "Invalid promo code"
          ∧ applyPromoCode sampleBooking none = Except.error "Invalid promo code"
          ∧ (∃ b2 : Booking, applyPromoCode sampleBooking (some "WELCOME10") = Except.ok b2
              ∧ b2.discount = min (sampleBooking.roomPrice * (0.10 : ℚ)) 500
              ∧ b2.totalAmount
                  = sampleBooking.roomPrice + sampleBooking.taxes + sampleBooking.serviceFee
                    - b2.discount)
          ∧ (∀ (bp tp sf : ℚ) (ci co : Int) (n : Nat),
              (quoteBooking bp tp sf ci co n none).discountAmount = 0)
          ∧ (quoteBooking 3000 10 50 0 172800000 1 (some "WELCOME10")).discountAmount = 500) :=
  ⟨Or.inl rfl, by decide,
    promo_code_validation sampleBooking "FAKE20" (Or.inl rfl) (by decide)⟩

/-- Claim C8: every quote satisfies
`total = base + taxes + serviceFee - discount` with
`base = basePrice * nights * numberOfRooms`,
`taxes = base * (taxPercent / 100)` and
`depositAmount = round(total * 0.20)`; on the spec's example (two
nights of June 2025 at base price 1000, 10% tax, fee 50, one room) the
quote is base 2000, taxes 200, total 2250, deposit 450. -/
theorem quote_pricing_formula :
    (∀ (bp tp sf : ℚ) (ci co : Int) (n : Nat) (promo : Option String),
        (quoteBooking bp tp sf ci co n promo).total
            = (quoteBooking bp tp sf ci co n promo).base
              + (quoteBooking bp tp sf ci co n promo).taxes
              + (quoteBooking bp tp sf ci co n promo).serviceFee
              - (quoteBooking bp tp sf ci co n promo).discountAmount
          ∧ (quoteBooking bp tp sf ci co n promo).taxes
              = (quoteBooking bp tp sf ci co n promo).base * (tp / 100)
          ∧ (quoteBooking bp tp sf ci co n promo).base
              = bp * ((computeTotalNights ci co : Int) : ℚ) * (n : ℚ)
          ∧ (quoteBooking bp tp sf ci co n promo).depositAmount
              = jsRound ((quoteBooking bp tp sf ci co n promo).total * (0.20 : ℚ)))
      ∧ quoteBooking 1000 10 50 1748736000000 1748908800000 1 none
          = { nights := 2, base := 2000, taxes := 200, serviceFee := 50,
              discountAmount := 0, total := 2250, depositAmount := 450 } := by
  constructor
  · intro bp tp sf ci co n promo
    exact ⟨rfl, rfl, rfl, rfl⟩
  · simp [quoteBooking, computeTotalNights_june, QuoteResult.mk.injEq]
    norm_num [jsRound_fourfifty]

lemma computeTotalNights_exact (s n : Int) :
    computeTotalNights s (s + n * 86400000) = n := by
  unfold computeTotalNights
  have h : ((s + n * 86400000 - s : Int) : ℚ) = (n : ℚ) * 86400000 := by
    push_cast
    ring
  rw [h]
  have hden : (1000 * 60 * 60 * 24 : ℚ) = 86400000 := by norm_num
  rw [hden, mul_div_assoc]
  norm_num

/-- Claim C10: rebooking produces a fresh `pending` booking whose
check-in is 30 days from now, whose length in days is the original
`totalNights`, and whose pricing snapshot (room price, taxes, service
fee, discount, total) is copied verbatim — the rebook path never runs
the availability aggregation nor reprices (the copied pricing equals
the original's, whatever the new dates are). -/
theorem rebook_shifts_dates_copies_pricing (original : Booking) (now : Int)
    (h : 1 ≤ original.totalNights) :
    let nb := bookingPreValidate (rebookBooking original now)
    nb.status = BookingStatus.pending
      ∧ nb.checkIn = now + 30 * 86400000
      ∧ nb.checkOut - nb.checkIn = original.totalNights * 86400000
      ∧ nb.totalNights = original.totalNights
      ∧ nb.numberOfRooms = original.numberOfRooms
      ∧ nb.roomPrice = original.roomPrice
      ∧ nb.taxes = original.taxes
      ∧ nb.serviceFee = original.serviceFee
      ∧ nb.discount = original.discount
      ∧ nb.totalAmount = original.totalAmount := by
  have hne : ¬(original.totalNights = 0) := by omega
  unfold bookingPreValidate rebookBooking
  dsimp only
  rw [if_neg hne]
  refine ⟨rfl, rfl, by ring, ?_, rfl, rfl, rfl, rfl, rfl, rfl⟩
  exact computeTotalNights_exact (now + 30 * 86400000) original.totalNights

/-- Witness for C10 at the sample one-night booking rebooked from time
zero. -/
theorem rebook_shifts_dates_copies_pricing_witness :
    1 ≤ sampleBooking.totalNights
      ∧ (let nb := bookingPreValidate (rebookBooking sampleBooking 0)
        nb.status = BookingStatus.pending
          ∧ nb.checkIn = 0 + 30 * 86400000
          ∧ nb.checkOut - nb.checkIn = sampleBooking.totalNights * 86400000
          ∧ nb.totalNights = sampleBooking.totalNights
          ∧ nb.numberOfRooms = sampleBooking.numberOfRooms
          ∧ nb.roomPrice = sampleBooking.roomPrice
          ∧ nb.taxes = sampleBooking.taxes
          ∧ nb.serviceFee = sampleBooking.serviceFee
          ∧ nb.discount = sampleBooking.discount
          ∧ nb.totalAmount = sampleBooking.totalAmount) :=
  ⟨by decide, rebook_shifts_dates_copies_pricing sampleBooking 0 (by decide)⟩

end HotelBooking
